import Mathlib

/-!
Verification of the example HTTP generation server
(`examples/server/openai_server.py`): a shallow embedding of its request
handlers, together with theorems about routing outcomes, chat prompt
construction, the streaming chunk framing of `/generate`, and the shapes of
the JSON responses.

The handlers are embedded as pure functions from the decoded JSON request
body to either a response (plus the list of engine invocations they perform)
or an uncaught Python exception, modelled with `Except`. The external
generation engine (`tensorrt_llm.executor.GenerationExecutor`) is not part
of the sources; it is modelled from the specification as an opaque map from
the arguments the server passes to a finite fragment sequence.
-/

namespace OpenAIServer

/-- JSON values as decoded from a request body (Python `request.json()`).
Objects are association lists in key insertion order with distinct keys, as
produced by the Python JSON decoder. Numbers are modelled as integers; no
claim involves fractional numbers. -/
inductive Json where
  | null
  | bool (b : Bool)
  | num (n : Int)
  | str (s : String)
  | arr (elems : List Json)
  | obj (fields : List (String × Json))

/-- The Python exceptions a handler body can raise: a failed dictionary
subscript, an operation on a value of the wrong type, and a failed
`assert`. -/
inductive PyError where
  | keyError (key : String)
  | typeError
  | assertionError

/-- A decoded JSON object, as mutated by the handlers (`.pop`). -/
abbrev Dict := List (String × Json)

/-- Python truthiness of a decoded JSON value. -/
def pyTruthy : Json → Bool
  | .null => false
  | .bool b => b
  | .num n => n != 0
  | .str s => s != ""
  | .arr xs => !xs.isEmpty
  | .obj kvs => !kvs.isEmpty

/-- Python `d.pop(k, default)` on a decoded JSON object: the value at `k`
(or the default when absent), together with the dictionary with `k`
removed. -/
def popKey (d : Dict) (k : String) (default : Json) : Json × Dict :=
  match d.lookup k with
  | some v => (v, d.filter (fun kv => kv.1 != k))
  | none => (default, d)

/-- Python `d[k]` on a decoded JSON object: raises `KeyError k` when the key
is absent. -/
def getKey (d : Dict) (k : String) : Except PyError Json :=
  match d.lookup k with
  | some v => .ok v
  | none => .error (.keyError k)

/-- Python subscript `j[k]` with a string key on an arbitrary decoded JSON
value: objects look the key up, everything else (lists, strings, scalars) is
a type error. -/
def getItemJson : Json → String → Except PyError Json
  | .obj kvs, k => getKey kvs k
  | _, _ => .error .typeError

/-- Python `==` between a decoded JSON value and a string literal: true
exactly when the value is that string. -/
def pyEqStr (j : Json) (s : String) : Bool :=
  match j with
  | .str t => t == s
  | _ => false

/-- Python `str()` of a decoded JSON value, as interpolated by the f-strings
of the source. The scalar cases are exact; container values are abbreviated
(Python formats them through `repr`, whose exact text depends on character
printability tables) — no claim exercises a non-string message content. -/
def pyStr : Json → String
  | .null => "None"
  | .bool true => "True"
  | .bool false => "False"
  | .num n => toString n
  | .str s => s
  | .arr _ => "<list>"
  | .obj _ => "<dict>"

/-- Python `for x in j`: iterating a decoded JSON value. Lists iterate over
their elements, strings over their one-character substrings, objects over
their keys; scalars are not iterable. -/
def asIterList : Json → Except PyError (List Json)
  | .arr xs => .ok xs
  | .str s => .ok (s.data.map (fun c => Json.str (String.mk [c])))
  | .obj kvs => .ok (kvs.map (fun kv => Json.str kv.1))
  | _ => .error .typeError

/-- One step of Python dict-display construction: insert key `k` with value
`v`, overwriting the value (but keeping the position) of an existing `k`. -/
def dictInsert (kvs : Dict) (k : String) (v : Json) : Dict :=
  if kvs.any (fun kv => kv.1 == k) then
    kvs.map (fun kv => if kv.1 == k then (kv.1, v) else kv)
  else kvs ++ [(k, v)]

/-- A Python dict display evaluated left to right: a later duplicate key
overwrites the earlier value but keeps the first position, as in the
`/v1/models` response literal of the source, which repeats its first key. -/
def dictLiteral (pairs : List (String × Json)) : Dict :=
  pairs.foldl (fun acc kv => dictInsert acc kv.1 kv.2) []

/-- In-order concatenation of a list of strings. -/
def concatStrings : List String → String
  | [] => ""
  | s :: rest => s ++ concatStrings rest

/-- Modelled from the spec: the external Generation Engine
(`tensorrt_llm.executor.GenerationExecutor`, absent from the sources under
verification). Per spec section 2 it produces, for a prompt and generation
parameters, a finite sequence of incremental text fragments. The model
records that sequence as a function of the two content-determining values
the server passes to `generate_async` (the prompt and `max_new_tokens`);
per the spec, the `streaming` flag selects the access mode of the handle,
not the generated content. -/
structure Engine where
  fragments : Json → Json → List String

/-- One keyword-argument record of a call to `executor.generate_async`.
Both call sites of the source pass exactly the keywords `prompt`,
`max_new_tokens` and `streaming`; `extra_kwargs` records any further
keyword arguments passed (there are none at either site). -/
structure EngineCall where
  prompt : Json
  max_new_tokens : Json
  streaming : Json
  extra_kwargs : List (String × Json)

/-- Modelled from the spec: the GenerationHandle returned by
`generate_async`. Iterating it yields the fragments in generation order;
after awaiting completion its `text` is the final accumulated text (spec
section 3), i.e. the in-order concatenation of the fragments. -/
structure GenerationHandle where
  frags : List String

/-- The accumulated text of a completed handle. -/
def GenerationHandle.text (h : GenerationHandle) : String :=
  concatStrings h.frags

/-- Modelled from the spec: starting a generation returns a handle over the
fragment sequence the engine produces for these arguments. -/
def Engine.generate_async (e : Engine) (prompt max_new_tokens streaming : Json) :
    GenerationHandle :=
  ⟨e.fragments prompt max_new_tokens⟩

/-- The HTTP responses the embedded handlers construct: a bare status
response, a `JSONResponse`, or a chunked `StreamingResponse`. -/
inductive Response where
  | plain (status : Nat)
  | jsonResponse (status : Nat) (body : Json)
  | streamingResponse (chunks : List String)

/-- The NUL character terminating each streamed chunk. -/
def nulChar : Char := Char.ofNat 0

/-- The NUL terminator as a one-character string. -/
def nulStr : String := String.mk [nulChar]

/-- A lowercase hexadecimal digit for the low four bits of `n`. -/
def toHexChar (n : Nat) : Char :=
  if n % 16 < 10 then Char.ofNat (48 + n % 16) else Char.ofNat (87 + n % 16)

/-- A JSON `\uXXXX` escape for the low 16 bits of `n`, lowercase as emitted
by CPython. -/
def uEscape (n : Nat) : List Char :=
  ['\\', 'u', toHexChar (n / 4096), toHexChar (n / 256), toHexChar (n / 16), toHexChar n]

/-- Per-character escaping of Python `json.dumps` at its default settings
(`ensure_ascii` on): backslash, double quote and the five shorthand control
escapes; every other character below 0x20 or at or above 0x7f becomes a
`\uXXXX` escape (a surrogate pair above 0xffff); printable ASCII passes
through unchanged. -/
def escapeChar (c : Char) : List Char :=
  if c = '\\' then ['\\', '\\']
  else if c = '"' then ['\\', '"']
  else if c.toNat = 8 then ['\\', 'b']
  else if c.toNat = 12 then ['\\', 'f']
  else if c.toNat = 10 then ['\\', 'n']
  else if c.toNat = 13 then ['\\', 'r']
  else if c.toNat = 9 then ['\\', 't']
  else if c.toNat < 32 ∨ 127 ≤ c.toNat then
    if c.toNat < 65536 then uEscape c.toNat
    else uEscape (55296 + (c.toNat - 65536) / 1024) ++
         uEscape (56320 + (c.toNat - 65536) % 1024)
  else [c]

/-- The text between the quotes of the JSON encoding of a string. -/
def escapeBody : List Char → List Char
  | [] => []
  | c :: rest => escapeChar c ++ escapeBody rest

/-- Python `json.dumps` applied to a string at its default settings. -/
def json_dumps (s : String) : String :=
  String.mk ('"' :: escapeBody s.data ++ ['"'])

/-- The value of a hexadecimal digit character, either case. -/
def hexDigitVal (c : Char) : Option Nat :=
  if 48 ≤ c.toNat ∧ c.toNat ≤ 57 then some (c.toNat - 48)
  else if 97 ≤ c.toNat ∧ c.toNat ≤ 102 then some (c.toNat - 87)
  else if 65 ≤ c.toNat ∧ c.toNat ≤ 70 then some (c.toNat - 55)
  else none

/-- The value of four hexadecimal digit characters. -/
def parseHex4 (a b c d : Char) : Option Nat :=
  match hexDigitVal a, hexDigitVal b, hexDigitVal c, hexDigitVal d with
  | some x1, some x2, some x3, some x4 => some (((x1 * 16 + x2) * 16 + x3) * 16 + x4)
  | _, _, _, _ => none

/-- Prepend a decoded character to a decoding result. -/
def consFst (c : Char) : Option (List Char × List Char) → Option (List Char × List Char)
  | some (cs, rest) => some (c :: cs, rest)
  | none => none

mutual

/-- Decoding loop for a JSON string literal: consumes characters up to an
unescaped closing double quote and returns the decoded characters together
with the input remaining after that quote. Escape handling follows the JSON
grammar; a malformed escape, a lone surrogate, or a missing closing quote
yields `none`. -/
def decodeBody : List Char → Option (List Char × List Char)
  | [] => none
  | c :: rest =>
    if c = '"' then some ([], rest)
    else if c = '\\' then decodeEsc rest
    else consFst c (decodeBody rest)

/-- Decode the remainder of one escape sequence (the characters after the
backslash). -/
def decodeEsc : List Char → Option (List Char × List Char)
  | [] => none
  | e :: r =>
    if e = '"' then consFst '"' (decodeBody r)
    else if e = '\\' then consFst '\\' (decodeBody r)
    else if e = '/' then consFst '/' (decodeBody r)
    else if e = 'b' then consFst (Char.ofNat 8) (decodeBody r)
    else if e = 'f' then consFst (Char.ofNat 12) (decodeBody r)
    else if e = 'n' then consFst (Char.ofNat 10) (decodeBody r)
    else if e = 'r' then consFst (Char.ofNat 13) (decodeBody r)
    else if e = 't' then consFst (Char.ofNat 9) (decodeBody r)
    else if e = 'u' then decodeU r
    else none

/-- Decode the four hex digits of a `\uXXXX` escape; a high surrogate value
must be followed by a low surrogate escape and is recombined with it. -/
def decodeU : List Char → Option (List Char × List Char)
  | h1 :: h2 :: h3 :: h4 :: r1 =>
    match parseHex4 h1 h2 h3 h4 with
    | some n =>
      if n < 55296 ∨ 57343 < n then consFst (Char.ofNat n) (decodeBody r1)
      else if n ≤ 56319 then decodeLowSurrogate n r1
      else none
    | none => none
  | _ => none

/-- Decode the low-surrogate escape following a high surrogate of value `n`
and recombine the pair into one code point. -/
def decodeLowSurrogate (n : Nat) : List Char → Option (List Char × List Char)
  | b1 :: b2 :: g1 :: g2 :: g3 :: g4 :: r2 =>
    if b1 = '\\' ∧ b2 = 'u' then
      match parseHex4 g1 g2 g3 g4 with
      | some m =>
        if 56320 ≤ m ∧ m ≤ 57343 then
          consFst (Char.ofNat (65536 + (n - 55296) * 1024 + (m - 56320))) (decodeBody r2)
        else none
      | none => none
    else none
  | _ => none

end

/-- Python `json.loads` restricted to a single JSON string literal — the
only shape the streamed chunks of `/generate` contain: a leading quote, a
decoded body, the closing quote, and no trailing input. -/
def json_loads_string (s : String) : Option String :=
  match s.data with
  | c :: rest =>
    if c = '"' then
      match decodeBody rest with
      | some (cs, []) => some (String.mk cs)
      | _ => none
    else none
  | [] => none

/-- Split a character list at each NUL character, keeping empty pieces, as a
client splitting the received byte stream would. -/
def splitNulChars : List Char → List (List Char)
  | [] => [[]]
  | c :: rest =>
    if c = nulChar then [] :: splitNulChars rest
    else
      match splitNulChars rest with
      | [] => [[c]]
      | piece :: pieces => (c :: piece) :: pieces

/-- Split a string at each NUL character. -/
def splitNul (s : String) : List String :=
  (splitNulChars s.data).map String.mk

/-- The `GET /health` route handler of the source: it never consults the
process-wide executor and returns a bare 200 response with no body and no
engine interaction. -/
def health (executor : Option Engine) : Response :=
  Response.plain 200

/-- The `GET /v1/models` route handler. The dict display of the source
repeats the key `object` (both times with value `list`); the Python
semantics of that display is reproduced by `dictLiteral`. -/
def show_available_models : Response :=
  Response.jsonResponse 200 (Json.obj (dictLiteral [
    ("object", Json.str "list"),
    ("data", Json.arr [Json.obj (dictLiteral [
        ("id", Json.str "default"),
        ("object", Json.str "model"),
        ("created", Json.num 1686935002),
        ("owned_by", Json.str "TensorRT-LLM")])]),
    ("object", Json.str "list")]))

/-- The inner `stream_results` async generator of the `/generate` handler:
one chunk per fragment of the handle, in order, each chunk being the
JSON-encoded fragment text followed by a NUL terminator. -/
def stream_results : List String → List String
  | [] => []
  | t :: rest => (json_dumps t ++ nulStr) :: stream_results rest

/-- The `POST /generate` route handler: pop `streaming` (default false),
start a generation with the `prompt` and `max_new_tokens` entries of the
body (a missing key raises `KeyError`), then either stream NUL-terminated
JSON chunks or block and return the full text as a single JSON object. -/
def generate (executor : Option Engine) (request_dict : Dict) :
    Except PyError (Response × List EngineCall) := do
  let engine ← match executor with
    | some e => Except.ok e
    | none => Except.error PyError.assertionError
  let (streaming, request_dict) := popKey request_dict "streaming" (Json.bool false)
  let prompt ← getKey request_dict "prompt"
  let max_new_tokens ← getKey request_dict "max_new_tokens"
  let promise := engine.generate_async prompt max_new_tokens streaming
  let calls := [EngineCall.mk prompt max_new_tokens streaming []]
  if pyTruthy streaming then
    return (Response.streamingResponse (stream_results promise.frags), calls)
  else
    return (Response.jsonResponse 200 (Json.obj [("text", Json.str promise.text)]), calls)

/-- The message loop of the `/v1/chat/completions` handler: starting from
the accumulated prompt, append per message the user piece, then the
assistant piece, matching the two independent `if` statements of the
source; a message whose role is neither string is skipped silently. A
subscript failure inside the loop raises. -/
def chat_prompt_loop : List Json → String → Except PyError String
  | [], chat_prompt => .ok chat_prompt
  | message :: rest, chat_prompt => do
    let role ← getItemJson message "role"
    let chat_prompt ←
      if pyEqStr role "user" then do
        let content ← getItemJson message "content"
        pure (chat_prompt ++ ("[INST] " ++ pyStr content ++ " [/INST] "))
      else pure chat_prompt
    let chat_prompt ←
      if pyEqStr role "assistant" then do
        let content ← getItemJson message "content"
        pure (chat_prompt ++ (pyStr content ++ " </s> "))
      else pure chat_prompt
    chat_prompt_loop rest chat_prompt

/-- The `POST /v1/chat/completions` route handler. `now` stands for the
value of `time.time()` when the response is built (the source stores it at
the `created` key; its value is irrelevant to every claim). -/
def chat_completion (executor : Option Engine) (request_dict : Dict) (now : Json) :
    Except PyError (Response × List EngineCall) := do
  let engine ← match executor with
    | some e => Except.ok e
    | none => Except.error PyError.assertionError
  let (streaming, request_dict) := popKey request_dict "streaming" (Json.bool false)
  if pyTruthy streaming then
    return (Response.jsonResponse 200
      (Json.obj [("error", Json.str "streaming is not yet supported!")]), [])
  else do
    let messages ← getKey request_dict "messages"
    let messageList ← asIterList messages
    let chat_prompt ← chat_prompt_loop messageList "<s> "
    let max_tokens ← getKey request_dict "max_tokens"
    let promise := engine.generate_async (Json.str chat_prompt) max_tokens streaming
    let calls := [EngineCall.mk (Json.str chat_prompt) max_tokens streaming []]
    return (Response.jsonResponse 200 (Json.obj (dictLiteral [
        ("object", Json.str "chat.completion"),
        ("choices", Json.arr [Json.obj (dictLiteral [
            ("finish_reason", Json.str "stop"),
            ("index", Json.num 0),
            ("message", Json.obj (dictLiteral [
                ("content", Json.str promise.text),
                ("role", Json.str "assistant")]))])]),
        ("id", Json.str "xd"),
        ("created", now),
        ("model", Json.str "default"),
        ("usage", Json.obj (dictLiteral [
            ("completion_tokens", Json.num 18),
            ("prompt_tokens", Json.num 14),
            ("total_tokens", Json.num 32)]))])), calls)

/-- The per-message template piece as the specification words it: the user
piece, the assistant piece, or nothing for any other role. Stated from the
claim text, to be compared against the source loop `chat_prompt_loop`. -/
def msgPiece (m : String × String) : String :=
  if m.1 = "user" then "[INST] " ++ m.2 ++ " [/INST] "
  else if m.1 = "assistant" then m.2 ++ " </s> "
  else ""

/-- The chat prompt exactly as the specification words it: the literal
prefix, then the template pieces of the messages in input order. -/
def specChatPrompt (messages : List (String × String)) : String :=
  "<s> " ++ concatStrings (messages.map msgPiece)

/-- A role/content chat message as a decoded JSON object. -/
def mkMessage (m : String × String) : Json :=
  Json.obj [("role", Json.str m.1), ("content", Json.str m.2)]

/-- The field list of the chat completion response object once the dict
display of the source is evaluated, with generated text `txt` and response
timestamp `now`. -/
def chatResponseFields (txt : String) (now : Json) : Dict :=
  [("object", Json.str "chat.completion"),
   ("choices", Json.arr [Json.obj [("finish_reason", Json.str "stop"), ("index", Json.num 0),
      ("message", Json.obj [("content", Json.str txt), ("role", Json.str "assistant")])]]),
   ("id", Json.str "xd"), ("created", now), ("model", Json.str "default"),
   ("usage", Json.obj [("completion_tokens", Json.num 18), ("prompt_tokens", Json.num 14),
      ("total_tokens", Json.num 32)])]

/-- Formalization of the pass-through reading of the spec for `/generate`:
every key of the body other than `prompt`, `max_new_tokens` and `streaming`
reappears among the extra keyword arguments of some recorded engine call. -/
def extrasForwarded (body : Dict) (calls : List EngineCall) : Prop :=
  ∀ kv ∈ body, kv.1 ∉ (["prompt", "max_new_tokens", "streaming"] : List String) →
    ∃ c ∈ calls, kv ∈ c.extra_kwargs

/-- Fragment lookup of a concrete test engine used by witnesses: two fixed
fragments for every request. -/
def testEngine : Engine :=
  ⟨fun _ _ => ["Hel\"lo", " world"]⟩

/-- A concrete `/generate` body carrying an extra sampling key. -/
def c2Body : Dict :=
  [("prompt", Json.str "p"), ("max_new_tokens", Json.num 3), ("temperature", Json.num 1)]

/-- A concrete valid `/generate` body with `streaming` true. -/
def c4Body : Dict :=
  [("prompt", Json.str "p"), ("max_new_tokens", Json.num 5), ("streaming", Json.bool true)]

/-- A concrete valid `/generate` body with `streaming` absent. -/
def c5Body : Dict :=
  [("prompt", Json.str "q"), ("max_new_tokens", Json.num 2)]

/-! ### Helper lemmas: the JSON string codec -/

theorem hexDigitVal_toHexChar (n : Nat) : hexDigitVal (toHexChar n) = some (n % 16) := by
  have h16 : ∀ d, d < 16 → hexDigitVal (toHexChar d) = some d := by decide
  have hmm : n % 16 % 16 = n % 16 := by omega
  have hmod : toHexChar n = toHexChar (n % 16) := by
    unfold toHexChar
    rw [hmm]
  rw [hmod, h16 (n % 16) (by omega)]

theorem parseHex4_toHexChar (n : Nat) (hn : n < 65536) :
    parseHex4 (toHexChar (n / 4096)) (toHexChar (n / 256)) (toHexChar (n / 16)) (toHexChar n)
      = some n := by
  simp only [parseHex4, hexDigitVal_toHexChar]
  congr 1
  omega

theorem decodeU_uEscape (n : Nat) (l : List Char) (hn : n < 65536)
    (hrange : n < 55296 ∨ 57343 < n) :
    decodeU (toHexChar (n / 4096) :: toHexChar (n / 256) :: toHexChar (n / 16) ::
      toHexChar n :: l) = consFst (Char.ofNat n) (decodeBody l) := by
  rw [decodeU, parseHex4_toHexChar n hn]
  show (if n < 55296 ∨ 57343 < n then consFst (Char.ofNat n) (decodeBody l)
        else if n ≤ 56319 then decodeLowSurrogate n l else none)
      = consFst (Char.ofNat n) (decodeBody l)
  rw [if_pos hrange]

theorem decodeU_surrogates (v : Nat) (l : List Char) (hv : v < 1048576) :
    decodeU (toHexChar ((55296 + v / 1024) / 4096) :: toHexChar ((55296 + v / 1024) / 256) ::
      toHexChar ((55296 + v / 1024) / 16) :: toHexChar (55296 + v / 1024) ::
      ('\\' :: 'u' :: toHexChar ((56320 + v % 1024) / 4096) :: toHexChar ((56320 + v % 1024) / 256) ::
      toHexChar ((56320 + v % 1024) / 16) :: toHexChar (56320 + v % 1024) :: l)) =
    consFst (Char.ofNat (65536 + v)) (decodeBody l) := by
  have hhi : 55296 + v / 1024 < 65536 := by omega
  have hlo : 56320 + v % 1024 < 65536 := by omega
  set low := '\\' :: 'u' :: toHexChar ((56320 + v % 1024) / 4096) ::
      toHexChar ((56320 + v % 1024) / 256) ::
      toHexChar ((56320 + v % 1024) / 16) :: toHexChar (56320 + v % 1024) :: l with hlow
  rw [decodeU, parseHex4_toHexChar _ hhi]
  show (if 55296 + v / 1024 < 55296 ∨ 57343 < 55296 + v / 1024 then
          consFst (Char.ofNat (55296 + v / 1024)) (decodeBody low)
        else if 55296 + v / 1024 ≤ 56319 then decodeLowSurrogate (55296 + v / 1024) low
        else none)
      = consFst (Char.ofNat (65536 + v)) (decodeBody l)
  rw [if_neg (by omega), if_pos (by omega), hlow, decodeLowSurrogate,
      if_pos ⟨rfl, rfl⟩, parseHex4_toHexChar _ hlo]
  show (if 56320 ≤ 56320 + v % 1024 ∧ 56320 + v % 1024 ≤ 57343 then
          consFst (Char.ofNat (65536 + (55296 + v / 1024 - 55296) * 1024 +
            (56320 + v % 1024 - 56320))) (decodeBody l)
        else none)
      = consFst (Char.ofNat (65536 + v)) (decodeBody l)
  rw [if_pos (by omega)]
  have harith : 65536 + (55296 + v / 1024 - 55296) * 1024 + (56320 + v % 1024 - 56320)
      = 65536 + v := by omega
  rw [harith]

theorem decodeBody_backslash (rest : List Char) :
    decodeBody ('\\' :: rest) = decodeEsc rest := by
  simp [decodeBody]

theorem decodeEsc_u (r : List Char) : decodeEsc ('u' :: r) = decodeU r := by
  simp [decodeEsc]

theorem decodeBody_escapeChar (c : Char) (l : List Char) :
    decodeBody (escapeChar c ++ l) = consFst c (decodeBody l) := by
  have hvalid : c.toNat < 55296 ∨ (57343 < c.toNat ∧ c.toNat < 1114112) := c.valid
  by_cases h1 : c = '\\'
  · subst h1; simp [escapeChar, decodeBody, decodeEsc]
  by_cases h2 : c = '"'
  · subst h2; simp [escapeChar, decodeBody, decodeEsc]
  by_cases h3 : c.toNat = 8
  · have hc : Char.ofNat 8 = c := by rw [← h3, Char.ofNat_toNat]
    simp [escapeChar, h1, h2, h3, decodeBody, decodeEsc]
    rw [hc]
  by_cases h4 : c.toNat = 12
  · have hc : Char.ofNat 12 = c := by rw [← h4, Char.ofNat_toNat]
    simp [escapeChar, h1, h2, h3, h4, decodeBody, decodeEsc]
    rw [hc]
  by_cases h5 : c.toNat = 10
  · have hc : Char.ofNat 10 = c := by rw [← h5, Char.ofNat_toNat]
    simp [escapeChar, h1, h2, h3, h4, h5, decodeBody, decodeEsc]
    rw [hc]
  by_cases h6 : c.toNat = 13
  · have hc : Char.ofNat 13 = c := by rw [← h6, Char.ofNat_toNat]
    simp [escapeChar, h1, h2, h3, h4, h5, h6, decodeBody, decodeEsc]
    rw [hc]
  by_cases h7 : c.toNat = 9
  · have hc : Char.ofNat 9 = c := by rw [← h7, Char.ofNat_toNat]
    simp [escapeChar, h1, h2, h3, h4, h5, h6, h7, decodeBody, decodeEsc]
    rw [hc]
  by_cases h8 : c.toNat < 32 ∨ 127 ≤ c.toNat
  · by_cases h9 : c.toNat < 65536
    · have hstep : escapeChar c = uEscape c.toNat := by
        simp [escapeChar, h1, h2, h3, h4, h5, h6, h7, h8, h9]
      have hrange : c.toNat < 55296 ∨ 57343 < c.toNat := by omega
      rw [hstep]
      show decodeBody ('\\' :: 'u' :: toHexChar (c.toNat / 4096) :: toHexChar (c.toNat / 256) ::
        toHexChar (c.toNat / 16) :: toHexChar c.toNat :: l) = consFst c (decodeBody l)
      rw [decodeBody_backslash, decodeEsc_u, decodeU_uEscape c.toNat l h9 hrange,
          Char.ofNat_toNat]
    · have hstep : escapeChar c = uEscape (55296 + (c.toNat - 65536) / 1024) ++
          uEscape (56320 + (c.toNat - 65536) % 1024) := by
        simp [escapeChar, h1, h2, h3, h4, h5, h6, h7, h8, h9]
      rw [hstep]
      have hv : c.toNat - 65536 < 1048576 := by omega
      have hrw : (uEscape (55296 + (c.toNat - 65536) / 1024) ++
          uEscape (56320 + (c.toNat - 65536) % 1024)) ++ l =
          '\\' :: 'u' :: (toHexChar ((55296 + (c.toNat - 65536) / 1024) / 4096) ::
          toHexChar ((55296 + (c.toNat - 65536) / 1024) / 256) ::
          toHexChar ((55296 + (c.toNat - 65536) / 1024) / 16) ::
          toHexChar (55296 + (c.toNat - 65536) / 1024) ::
          ('\\' :: 'u' :: toHexChar ((56320 + (c.toNat - 65536) % 1024) / 4096) ::
          toHexChar ((56320 + (c.toNat - 65536) % 1024) / 256) ::
          toHexChar ((56320 + (c.toNat - 65536) % 1024) / 16) ::
          toHexChar (56320 + (c.toNat - 65536) % 1024) :: l)) := by
        simp [uEscape]
      rw [hrw, decodeBody_backslash, decodeEsc_u, decodeU_surrogates (c.toNat - 65536) l hv]
      have harith : 65536 + (c.toNat - 65536) = c.toNat := by omega
      rw [harith, Char.ofNat_toNat]
  · have hstep : escapeChar c = [c] := by
      simp [escapeChar, h1, h2, h3, h4, h5, h6, h7, h8]
    rw [hstep]
    show decodeBody (c :: l) = consFst c (decodeBody l)
    simp [decodeBody, h1, h2]

theorem decodeBody_escapeBody (cs rest : List Char) :
    decodeBody (escapeBody cs ++ '"' :: rest) = some (cs, rest) := by
  induction cs with
  | nil => simp [escapeBody, decodeBody]
  | cons c cs ih =>
    simp only [escapeBody, List.append_assoc]
    rw [decodeBody_escapeChar, ih]
    rfl

theorem json_loads_json_dumps (s : String) :
    json_loads_string (json_dumps s) = some s := by
  have h := decodeBody_escapeBody s.data []
  simp [json_loads_string, json_dumps, h]

theorem toHexChar_ne_nul (n : Nat) : toHexChar n ≠ nulChar := by
  have h16 : ∀ d, d < 16 → toHexChar d ≠ nulChar := by decide
  have hmm : n % 16 % 16 = n % 16 := by omega
  have hmod : toHexChar n = toHexChar (n % 16) := by
    unfold toHexChar
    rw [hmm]
  rw [hmod]
  exact h16 (n % 16) (by omega)

theorem nul_not_mem_uEscape (n : Nat) : nulChar ∉ uEscape n := by
  intro hmem
  simp [uEscape] at hmem
  rcases hmem with h | h | h | h | h | h
  · exact absurd h (by decide)
  · exact absurd h (by decide)
  · exact toHexChar_ne_nul _ h.symm
  · exact toHexChar_ne_nul _ h.symm
  · exact toHexChar_ne_nul _ h.symm
  · exact toHexChar_ne_nul _ h.symm

theorem nul_not_mem_escapeChar (c : Char) : nulChar ∉ escapeChar c := by
  unfold escapeChar
  split_ifs with h1 h2 h3 h4 h5 h6 h7 h8 h9
  · decide
  · decide
  · decide
  · decide
  · decide
  · decide
  · decide
  · exact nul_not_mem_uEscape _
  · intro hmem
    rcases List.mem_append.mp hmem with h | h
    · exact nul_not_mem_uEscape _ h
    · exact nul_not_mem_uEscape _ h
  · intro hmem
    rcases List.mem_singleton.mp hmem with rfl
    simp [nulChar] at h8

theorem nul_not_mem_escapeBody (cs : List Char) : nulChar ∉ escapeBody cs := by
  induction cs with
  | nil => simp [escapeBody]
  | cons c cs ih =>
    intro hmem
    rcases List.mem_append.mp hmem with h | h
    · exact nul_not_mem_escapeChar c h
    · exact ih h

theorem nul_not_mem_json_dumps (s : String) : nulChar ∉ (json_dumps s).data := by
  show nulChar ∉ '"' :: escapeBody s.data ++ ['"']
  intro hmem
  rcases List.mem_cons.mp hmem with h | h
  · exact absurd h (by decide)
  · rcases List.mem_append.mp h with h | h
    · exact nul_not_mem_escapeBody s.data h
    · exact absurd h (by decide)

theorem splitNulChars_append_frame (xs rest : List Char) (h : nulChar ∉ xs) :
    splitNulChars (xs ++ nulChar :: rest) = xs :: splitNulChars rest := by
  induction xs with
  | nil => simp [splitNulChars]
  | cons x xs ih =>
    have hx : ¬x = nulChar := fun heq => h (heq ▸ List.mem_cons_self x xs)
    have hxs : nulChar ∉ xs := fun hmem => h (List.mem_cons_of_mem x hmem)
    simp only [List.cons_append, splitNulChars, if_neg hx, List.append_eq]
    rw [ih hxs]

theorem splitNulChars_frames (frags : List (List Char)) (h : ∀ f ∈ frags, nulChar ∉ f) :
    splitNulChars ((frags.map (fun f => f ++ [nulChar])).flatten) = frags ++ [[]] := by
  induction frags with
  | nil => simp [splitNulChars]
  | cons f fs ih =>
    have hf : nulChar ∉ f := h f (List.mem_cons_self f fs)
    have hfs : ∀ g ∈ fs, nulChar ∉ g := fun g hg => h g (List.mem_cons_of_mem f hg)
    simp only [List.map_cons, List.flatten_cons, List.append_assoc, List.singleton_append,
      List.cons_append]
    rw [splitNulChars_append_frame f _ hf]
    simp only [List.nil_append]
    rw [ih hfs]

/-! ### Helper lemmas: strings, streaming chunks, and handlers -/

theorem string_empty_append (s : String) : "" ++ s = s := by
  obtain ⟨d⟩ := s
  rfl

theorem except_ok_bind {e a b : Type} (x : a) (f : a → Except e b) :
    (Except.ok x >>= f) = f x := rfl

theorem concatStrings_data (l : List String) :
    (concatStrings l).data = (l.map String.data).flatten := by
  induction l with
  | nil => rfl
  | cons s rest ih =>
    show (s ++ concatStrings rest).data = _
    simp only [List.map_cons, List.flatten_cons]
    rw [String.data_append, ih]

theorem stream_results_eq_map (frags : List String) :
    stream_results frags = frags.map (fun t => json_dumps t ++ nulStr) := by
  induction frags with
  | nil => rfl
  | cons t rest ih => simp [stream_results, ih]

theorem splitNul_stream (frags : List String) :
    splitNul (concatStrings (stream_results frags)) = frags.map json_dumps ++ [""] := by
  unfold splitNul
  rw [concatStrings_data, stream_results_eq_map, List.map_map]
  have hcomp : (String.data ∘ fun t => json_dumps t ++ nulStr)
      = fun t => (json_dumps t).data ++ [nulChar] := by
    funext t
    show (json_dumps t ++ nulStr).data = _
    rw [String.data_append]
    rfl
  rw [hcomp]
  have hshape : (fun t => (json_dumps t).data ++ [nulChar])
      = (fun f => f ++ [nulChar]) ∘ (fun t : String => (json_dumps t).data) := rfl
  rw [hshape, ← List.map_map]
  rw [splitNulChars_frames _ (by
    intro f hf
    rcases List.mem_map.mp hf with ⟨t, ht, rfl⟩
    exact nul_not_mem_json_dumps t)]
  rw [List.map_append, List.map_map]
  have hid : (String.mk ∘ fun t : String => (json_dumps t).data) = json_dumps :=
    funext fun t => rfl
  rw [hid]
  rfl

theorem map_loads_map_dumps (frags : List String) :
    (frags.map json_dumps).map json_loads_string = frags.map some := by
  induction frags with
  | nil => rfl
  | cons t rest ih => simp [json_loads_json_dumps, ih]

theorem generate_valid_eq (e : Engine) (body : Dict) (p m : Json)
    (hp : (popKey body "streaming" (Json.bool false)).2.lookup "prompt" = some p)
    (hm : (popKey body "streaming" (Json.bool false)).2.lookup "max_new_tokens" = some m) :
    generate (some e) body = Except.ok
      ((if pyTruthy (popKey body "streaming" (Json.bool false)).1
        then Response.streamingResponse (stream_results (e.fragments p m))
        else Response.jsonResponse 200
          (Json.obj [("text", Json.str (concatStrings (e.fragments p m)))])),
       [EngineCall.mk p m (popKey body "streaming" (Json.bool false)).1 []]) := by
  unfold generate
  simp only [getKey, hp, hm]
  by_cases hst : pyTruthy (popKey body "streaming" (Json.bool false)).1
  · simp only [hst, if_true]
    rfl
  · simp only [hst, if_false, Bool.false_eq_true]
    rfl

theorem chat_prompt_loop_mk_user (c : String) (rest : List Json) (acc : String) :
    chat_prompt_loop (mkMessage ("user", c) :: rest) acc
      = chat_prompt_loop rest (acc ++ ("[INST] " ++ c ++ " [/INST] ")) := rfl

theorem chat_prompt_loop_mk_assistant (c : String) (rest : List Json) (acc : String) :
    chat_prompt_loop (mkMessage ("assistant", c) :: rest) acc
      = chat_prompt_loop rest (acc ++ (c ++ " </s> ")) := rfl

theorem chat_prompt_loop_mk_other (r c : String) (rest : List Json) (acc : String)
    (hr : r ≠ "user") (ha : r ≠ "assistant") :
    chat_prompt_loop (mkMessage (r, c) :: rest) acc = chat_prompt_loop rest acc := by
  have hru : (r == "user") = false := beq_eq_false_iff_ne.mpr hr
  have hra : (r == "assistant") = false := beq_eq_false_iff_ne.mpr ha
  rw [chat_prompt_loop]
  simp [mkMessage, getItemJson, getKey, pyEqStr, hru, hra, except_ok_bind]

theorem chat_prompt_loop_pairs (msgs : List (String × String)) (acc : String) :
    chat_prompt_loop (msgs.map mkMessage) acc
      = Except.ok (acc ++ concatStrings (msgs.map msgPiece)) := by
  induction msgs generalizing acc with
  | nil =>
    show chat_prompt_loop [] acc = _
    simp [chat_prompt_loop, concatStrings]
  | cons m rest ih =>
    obtain ⟨r, c⟩ := m
    simp only [List.map_cons]
    by_cases hr : r = "user"
    · subst hr
      rw [chat_prompt_loop_mk_user, ih]
      simp [msgPiece, concatStrings, String.append_assoc]
    · by_cases ha : r = "assistant"
      · subst ha
        rw [chat_prompt_loop_mk_assistant, ih]
        simp [msgPiece, concatStrings, String.append_assoc]
      · rw [chat_prompt_loop_mk_other r c _ _ hr ha, ih]
        simp only [msgPiece, concatStrings, if_neg hr, if_neg ha]
        rw [string_empty_append]

theorem chat_completion_valid_eq (e : Engine) (msgs : List (String × String)) (mt now : Json) :
    chat_completion (some e) [("messages", Json.arr (msgs.map mkMessage)), ("max_tokens", mt)] now
      = Except.ok (Response.jsonResponse 200 (Json.obj (chatResponseFields
          (concatStrings (e.fragments
            (Json.str ("<s> " ++ concatStrings (msgs.map msgPiece))) mt)) now)),
        [EngineCall.mk (Json.str ("<s> " ++ concatStrings (msgs.map msgPiece))) mt
          (Json.bool false) []]) := by
  unfold chat_completion
  simp [popKey, getKey, asIterList, pyTruthy, except_ok_bind, chat_prompt_loop_pairs,
        dictLiteral, dictInsert, Engine.generate_async, GenerationHandle.text,
        chatResponseFields, List.lookup]

/-! ### Claim theorems -/

/-- C1: a `/generate` body missing `prompt` makes the handler raise an
uncaught `KeyError "prompt"`, and one missing `max_new_tokens` an uncaught
`KeyError "max_new_tokens"`, instead of producing any response object. The
structured 4xx bad-request response the specification claims does not exist
in the code: the exception escapes the handler and the framework surfaces
it as a 500 server error. -/
theorem c1_generate_missing_field_raises :
    generate (some testEngine) [("max_new_tokens", Json.num 5)]
      = Except.error (PyError.keyError "prompt") ∧
    generate (some testEngine) [("prompt", Json.str "hi")]
      = Except.error (PyError.keyError "max_new_tokens") := ⟨rfl, rfl⟩

/-- C2 counterexample: at a `/generate` body carrying the extra sampling key
`temperature`, the handler succeeds but the single engine call receives only
the keyword arguments `prompt`, `max_new_tokens` and `streaming`; the extra
key is not among its keyword arguments, falsifying the verbatim pass-through
claim. -/
theorem c2_extras_not_forwarded :
    generate (some testEngine) c2Body = Except.ok
      (Response.jsonResponse 200 (Json.obj [("text",
        Json.str (concatStrings (testEngine.fragments (Json.str "p") (Json.num 3))))]),
       [EngineCall.mk (Json.str "p") (Json.num 3) (Json.bool false) []]) ∧
    ¬ extrasForwarded c2Body
        [EngineCall.mk (Json.str "p") (Json.num 3) (Json.bool false) []] := by
  refine ⟨rfl, ?_⟩
  intro h
  obtain ⟨cl, hcl, hkv⟩ := h ("temperature", Json.num 1) (by simp [c2Body]) (by simp)
  rcases List.mem_singleton.mp hcl with rfl
  exact List.not_mem_nil _ hkv

/-- C2 amended: for every valid `/generate` request, the engine is invoked
exactly once, with exactly the keyword arguments `prompt`, `max_new_tokens`
and `streaming`; every other key of the body is dropped, not forwarded. -/
theorem c2_generate_call_kwargs (e : Engine) (body : Dict) (p m : Json)
    (hp : (popKey body "streaming" (Json.bool false)).2.lookup "prompt" = some p)
    (hm : (popKey body "streaming" (Json.bool false)).2.lookup "max_new_tokens" = some m) :
    ∃ resp, generate (some e) body
      = Except.ok (resp,
          [EngineCall.mk p m (popKey body "streaming" (Json.bool false)).1 []]) :=
  ⟨_, generate_valid_eq e body p m hp hm⟩

/-- C2 amended, witnessed at the concrete body with the extra sampling key. -/
theorem c2_generate_call_kwargs_witness :
    ((popKey c2Body "streaming" (Json.bool false)).2.lookup "prompt"
      = some (Json.str "p")) ∧
    ((popKey c2Body "streaming" (Json.bool false)).2.lookup "max_new_tokens"
      = some (Json.num 3)) ∧
    ∃ resp, generate (some testEngine) c2Body
      = Except.ok (resp, [EngineCall.mk (Json.str "p") (Json.num 3)
          (popKey c2Body "streaming" (Json.bool false)).1 []]) :=
  ⟨rfl, rfl, c2_generate_call_kwargs testEngine c2Body _ _ rfl rfl⟩

/-- C3: for every ordered list of messages with string roles and contents,
the non-streaming chat handler calls the engine exactly once with the
prompt the specification describes — the literal prefix, then per message
in order the user piece, the assistant piece, or nothing — with
`max_new_tokens` equal to the request `max_tokens` and streaming off; and
the two concrete examples of the claim evaluate as stated on the source
loop. -/
theorem c3_chat_prompt_matches_spec (e : Engine) (msgs : List (String × String))
    (mt now : Json) :
    (∃ resp, chat_completion (some e)
        [("messages", Json.arr (msgs.map mkMessage)), ("max_tokens", mt)] now
      = Except.ok (resp,
          [EngineCall.mk (Json.str (specChatPrompt msgs)) mt (Json.bool false) []])) ∧
    chat_prompt_loop [mkMessage ("user", "Hi")] "<s> "
      = Except.ok "<s> [INST] Hi [/INST] " ∧
    chat_prompt_loop [mkMessage ("user", "Hi"), mkMessage ("assistant", "Hello")] "<s> "
      = Except.ok "<s> [INST] Hi [/INST] Hello </s> " :=
  ⟨⟨_, chat_completion_valid_eq e msgs mt now⟩, rfl, rfl⟩

/-- C4: for every valid `/generate` body whose `streaming` value is truthy,
the response is a chunked stream with exactly one chunk per engine fragment
in generation order, each chunk the JSON-encoded fragment text followed by
a NUL terminator; splitting the concatenated output at NUL yields exactly
the encoded fragments (plus the empty remainder after the final NUL), and
JSON-decoding each encoded piece reproduces the fragment sequence. -/
theorem c4_generate_streaming_frames (e : Engine) (body : Dict) (p m : Json)
    (hp : (popKey body "streaming" (Json.bool false)).2.lookup "prompt" = some p)
    (hm : (popKey body "streaming" (Json.bool false)).2.lookup "max_new_tokens" = some m)
    (hs : pyTruthy (popKey body "streaming" (Json.bool false)).1 = true) :
    generate (some e) body = Except.ok
      (Response.streamingResponse (stream_results (e.fragments p m)),
       [EngineCall.mk p m (popKey body "streaming" (Json.bool false)).1 []]) ∧
    stream_results (e.fragments p m)
      = (e.fragments p m).map (fun t => json_dumps t ++ nulStr) ∧
    splitNul (concatStrings (stream_results (e.fragments p m)))
      = (e.fragments p m).map json_dumps ++ [""] ∧
    ((e.fragments p m).map json_dumps).map json_loads_string
      = (e.fragments p m).map some := by
  refine ⟨?_, stream_results_eq_map _, splitNul_stream _, map_loads_map_dumps _⟩
  rw [generate_valid_eq e body p m hp hm]
  simp [hs]

/-- C4 witnessed at a concrete streaming request against the test engine. -/
theorem c4_generate_streaming_frames_witness :
    ((popKey c4Body "streaming" (Json.bool false)).2.lookup "prompt"
      = some (Json.str "p")) ∧
    ((popKey c4Body "streaming" (Json.bool false)).2.lookup "max_new_tokens"
      = some (Json.num 5)) ∧
    (pyTruthy (popKey c4Body "streaming" (Json.bool false)).1 = true) ∧
    (generate (some testEngine) c4Body = Except.ok
      (Response.streamingResponse
        (stream_results (testEngine.fragments (Json.str "p") (Json.num 5))),
       [EngineCall.mk (Json.str "p") (Json.num 5)
         (popKey c4Body "streaming" (Json.bool false)).1 []]) ∧
    stream_results (testEngine.fragments (Json.str "p") (Json.num 5))
      = (testEngine.fragments (Json.str "p") (Json.num 5)).map
          (fun t => json_dumps t ++ nulStr) ∧
    splitNul (concatStrings (stream_results (testEngine.fragments (Json.str "p") (Json.num 5))))
      = (testEngine.fragments (Json.str "p") (Json.num 5)).map json_dumps ++ [""] ∧
    ((testEngine.fragments (Json.str "p") (Json.num 5)).map json_dumps).map json_loads_string
      = (testEngine.fragments (Json.str "p") (Json.num 5)).map some) :=
  ⟨rfl, rfl, rfl, c4_generate_streaming_frames testEngine c4Body _ _ rfl rfl rfl⟩

/-- C5: for every valid `/generate` body whose `streaming` value is falsy
(including absent, which defaults to false), the handler returns the single
JSON object whose `text` field is the in-order concatenation of all
fragments the engine produces for that prompt (the completed handle text of
the spec-modelled engine). -/
theorem c5_generate_nonstreaming_text (e : Engine) (body : Dict) (p m : Json)
    (hp : (popKey body "streaming" (Json.bool false)).2.lookup "prompt" = some p)
    (hm : (popKey body "streaming" (Json.bool false)).2.lookup "max_new_tokens" = some m)
    (hs : pyTruthy (popKey body "streaming" (Json.bool false)).1 = false) :
    generate (some e) body = Except.ok
      (Response.jsonResponse 200
        (Json.obj [("text", Json.str (concatStrings (e.fragments p m)))]),
       [EngineCall.mk p m (popKey body "streaming" (Json.bool false)).1 []]) := by
  rw [generate_valid_eq e body p m hp hm]
  simp [hs]

/-- C5 witnessed at a concrete request with `streaming` absent. -/
theorem c5_generate_nonstreaming_text_witness :
    ((popKey c5Body "streaming" (Json.bool false)).2.lookup "prompt"
      = some (Json.str "q")) ∧
    ((popKey c5Body "streaming" (Json.bool false)).2.lookup "max_new_tokens"
      = some (Json.num 2)) ∧
    (pyTruthy (popKey c5Body "streaming" (Json.bool false)).1 = false) ∧
    generate (some testEngine) c5Body = Except.ok
      (Response.jsonResponse 200
        (Json.obj [("text",
          Json.str (concatStrings (testEngine.fragments (Json.str "q") (Json.num 2))))]),
       [EngineCall.mk (Json.str "q") (Json.num 2)
         (popKey c5Body "streaming" (Json.bool false)).1 []]) :=
  ⟨rfl, rfl, rfl, c5_generate_nonstreaming_text testEngine c5Body _ _ rfl rfl rfl⟩

/-- C6: every chat completion request whose `streaming` value is truthy gets
exactly the literal error object and produces no engine call. -/
theorem c6_chat_streaming_unsupported (e : Engine) (body : Dict) (now : Json)
    (hs : pyTruthy (popKey body "streaming" (Json.bool false)).1 = true) :
    chat_completion (some e) body now = Except.ok
      (Response.jsonResponse 200
        (Json.obj [("error", Json.str "streaming is not yet supported!")]), []) := by
  unfold chat_completion
  simp [hs, except_ok_bind]

/-- C6 witnessed at a concrete truthy (non-boolean) `streaming` value. -/
theorem c6_chat_streaming_unsupported_witness :
    (pyTruthy (popKey [("streaming", Json.num 7)] "streaming" (Json.bool false)).1 = true) ∧
    chat_completion (some testEngine) [("streaming", Json.num 7)] Json.null = Except.ok
      (Response.jsonResponse 200
        (Json.obj [("error", Json.str "streaming is not yet supported!")]), []) :=
  ⟨rfl, c6_chat_streaming_unsupported testEngine [("streaming", Json.num 7)] Json.null rfl⟩

/-- C7: for every non-streaming chat completion request, the response object
has exactly one choice, with finish reason `stop`, role `assistant` and the
generated text as content, and its usage block is the fixed triple 18/14/32
regardless of the request, the engine output, or the time of day. -/
theorem c7_chat_response_shape (e : Engine) (msgs : List (String × String)) (mt now : Json) :
    ∃ b calls, chat_completion (some e)
        [("messages", Json.arr (msgs.map mkMessage)), ("max_tokens", mt)] now
      = Except.ok (Response.jsonResponse 200 (Json.obj b), calls) ∧
      b.lookup "choices" = some (Json.arr [Json.obj
        [("finish_reason", Json.str "stop"), ("index", Json.num 0),
         ("message", Json.obj [("content", Json.str (concatStrings (e.fragments
            (Json.str (specChatPrompt msgs)) mt))), ("role", Json.str "assistant")])]]) ∧
      b.lookup "usage" = some (Json.obj [("completion_tokens", Json.num 18),
        ("prompt_tokens", Json.num 14), ("total_tokens", Json.num 32)]) :=
  ⟨_, _, chat_completion_valid_eq e msgs mt now, rfl, rfl⟩

/-- C8: the `/v1/models` response is a constant: the list object whose data
holds exactly one entry, with id `default`, object `model`, the fixed
created timestamp, and owner `TensorRT-LLM` (the duplicated `object` key of
the source dict display collapses to a single one). -/
theorem c8_models_constant :
    show_available_models = Response.jsonResponse 200 (Json.obj
      [("object", Json.str "list"),
       ("data", Json.arr [Json.obj
         [("id", Json.str "default"), ("object", Json.str "model"),
          ("created", Json.num 1686935002), ("owned_by", Json.str "TensorRT-LLM")]])]) := rfl

/-- C9: the `/health` handler returns a bare 200 response with empty body
whatever the executor state is — it never consults the engine, so its
output at any executor state equals its output with no engine at all. -/
theorem c9_health_constant (executor : Option Engine) :
    health executor = Response.plain 200 ∧ health executor = health none := ⟨rfl, rfl⟩

/-- C10: a chat completion request whose `streaming` value is truthy is
answered with the error object before `messages` or `max_tokens` is ever
read: even with both keys absent from the body, the handler returns the
error object and raises nothing. -/
theorem c10_chat_streaming_before_messages (e : Engine) (s : Json) (rest : Dict) (now : Json)
    (hs : pyTruthy s = true)
    (hmessages : rest.lookup "messages" = none)
    (hmax : rest.lookup "max_tokens" = none) :
    chat_completion (some e) (("streaming", s) :: rest) now = Except.ok
      (Response.jsonResponse 200
        (Json.obj [("error", Json.str "streaming is not yet supported!")]), []) := by
  unfold chat_completion
  simp [popKey, List.lookup, hs, except_ok_bind]

/-- C10 witnessed at a body holding nothing but the `streaming` flag. -/
theorem c10_chat_streaming_before_messages_witness :
    (pyTruthy (Json.bool true) = true) ∧
    (([] : Dict).lookup "messages" = none) ∧
    (([] : Dict).lookup "max_tokens" = none) ∧
    chat_completion (some testEngine) [("streaming", Json.bool true)] Json.null = Except.ok
      (Response.jsonResponse 200
        (Json.obj [("error", Json.str "streaming is not yet supported!")]), []) :=
  ⟨rfl, rfl, rfl,
    c10_chat_streaming_before_messages testEngine (Json.bool true) [] Json.null rfl rfl rfl⟩

end OpenAIServer
